import Mathlib

/-!
Shallow embedding of `example/bench.cc` (ignition-transport benchmark
example): payload preparation, the relay-side callbacks, the topic names,
the main driver's control flow, the throughput and latency measurement
loops with their statistics, and the condition-variable wait predicates.
Floating-point `double` arithmetic of the report rows is modelled over ℚ,
and `uint64_t` durations as `Nat` values bounded by `2^64 - 1`.
-/

namespace Bench

/-- Payload of an `ignition::msgs::Bytes` message: the raw data bytes. -/
abbrev Payload := List Char

/-- PrepMsg (bench.cc:99-111 and 602-613): the data field is `_size` copies
of the character '0'. -/
def prepPayload (size : Nat) : Payload := List.replicate size '0'

/-- Largest `uint64_t` value, `std::numeric_limits<uint64_t>::max()`. -/
def U64MAX : Nat := 2 ^ 64 - 1

/-! ## Topic names (bench.cc:165-193 for the relay, 311-346 for the driver) -/

/-- Relay reply topic for throughput, bench.cc:165-166. -/
def relayThroughputReplyTopic (size : Nat) : String :=
  "/benchmark/throughput/" ++ toString size ++ "reply"

/-- Relay reply topic for latency, bench.cc:167-168. -/
def relayLatencyReplyTopic (size : Nat) : String :=
  "/benchmark/latency/" ++ toString size ++ "reply"

/-- Relay request topic for throughput, bench.cc:190-191. -/
def relayThroughputRequestTopic (size : Nat) : String :=
  "/benchmark/throughput/" ++ toString size ++ "request"

/-- Relay request topic for latency, bench.cc:192-193. -/
def relayLatencyRequestTopic (size : Nat) : String :=
  "/benchmark/latency/" ++ toString size ++ "request"

/-- PubTester's throughput request topic, bench.cc:312-313. -/
def pubThroughputRequestTopic : String := "/benchmark/throughput/request"

/-- PubTester's latency request topic, bench.cc:322-323. -/
def pubLatencyRequestTopic : String := "/benchmark/latency/request"

/-- PubTester's throughput reply subscription topic, bench.cc:332. -/
def pubThroughputReplyTopic : String := "/benchmark/throughput/reply"

/-- PubTester's latency reply subscription topic, bench.cc:341. -/
def pubLatencyReplyTopic : String := "/benchmark/latency/reply"

/-! ## Relay-side callbacks (ReplyTester) -/

/-- Mutable relay state touched by the subscribed callbacks: the
`sizeReceived` member of `Tester` (bench.cc:146). -/
structure RelayState where
  sizeReceived : Nat
deriving DecidableEq

/-- Lambda subscribed to the throughput request topic in
`ReplyTester::Start` (bench.cc:195-200): it records the size (and logs a
line); it publishes nothing.  The returned list is the messages published
to the reply topic. -/
def relaySubscribedThroughputCb (size : Nat) (_msg : Payload) (s : RelayState) :
    RelayState × List Payload :=
  ({ s with sizeReceived := size }, [])

/-- Lambda subscribed to the latency request topic in `ReplyTester::Start`
(bench.cc:210-215): it records the size (and logs a line); it publishes
nothing. -/
def relaySubscribedLatencyCb (size : Nat) (_msg : Payload) (s : RelayState) :
    RelayState × List Payload :=
  ({ s with sizeReceived := size }, [])

/-- Member callback `ReplyTester::ThroughputReply` (bench.cc:244-247):
republishes the incoming message.  It is never passed to any `Subscribe`
call. -/
def relayMemberThroughputReply (msg : Payload) : List Payload := [msg]

/-- Member callback `ReplyTester::LatencyCb` (bench.cc:251-265): builds a
fresh message whose payload is one '0' byte and publishes that, ignoring
the incoming payload.  It is never passed to any `Subscribe` call. -/
def relayMemberLatencyCb (_msg : Payload) : List Payload :=
  [List.replicate 1 '0']

/-! ## main's control flow (bench.cc:680-745) -/

/-- Calls main makes, in order. -/
inductive MainAction where
  | setIterations
  | setOutputFilename
  | constructReplyTester
  | replyStart
  | pubInit
  | pubThroughput
  | pubLatency
  | waitForStop
deriving DecidableEq

/-- Command-line flags relevant to main's branching. -/
structure Flags where
  t : Bool
  l : Bool
  r : Bool
  p : Bool

/-- Control flow of `main` after flag parsing (bench.cc:713-744): set
iterations and output filename, then branch on `-r` (relay only: construct
a ReplyTester and block on the global condition until `gStop`), `-p`
(publisher only: Init then Throughput or Latency), else co-located
(construct a ReplyTester, Init, then Throughput or Latency).
`ReplyTester::Start` is not among the calls on any path. -/
def mainRun (f : Flags) : List MainAction :=
  [MainAction.setIterations, MainAction.setOutputFilename] ++
  (if f.r then [MainAction.constructReplyTester, MainAction.waitForStop]
   else if f.p then
     MainAction.pubInit ::
       (if f.t then [MainAction.pubThroughput] else [MainAction.pubLatency])
   else
     MainAction.constructReplyTester :: MainAction.pubInit ::
       (if f.t then [MainAction.pubThroughput] else [MainAction.pubLatency]))

/-! ## Message size lists -/

/-- PubTester::msgSizes (bench.cc:616-620). -/
def pubMsgSizes : List Nat :=
  [256, 512, 1000, 2000, 4000, 8000, 16000, 32000, 64000,
   128000, 256000, 512000, 1000000, 2000000, 4000000]

/-- Tester::msgSizes (bench.cc:114-118). -/
def testerMsgSizes : List Nat :=
  [256, 512, 1000, 2000, 4000, 8000, 16000, 32000, 64000,
   128000, 256000, 512000, 1000000, 2000000, 4000000]

/-! ## Throughput measurement (PubTester::Throughput, ThroughputCb) -/

/-- Modelled from the spec: `Node::Publisher::Publish(unique_ptr, callback)`
of the transport library is not under `src/`; per the spec the reusable
outbound message object's "ownership transfers to the transport on publish
and is returned asynchronously via a completion callback".  The throughput
loop (bench.cc:430-433) passes a null completion callback, so the member
`msg` is left empty after the first call.  This function returns the list
of message values handed to the successive `Publish` calls: the loop runs
`sentMsgs` times while the stop flag is unset, publishing the current
`msg` (moved out, leaving `none` behind). -/
def throughputPublishLoop (stop : Bool) : Nat → Option Payload → List (Option Payload)
  | 0, _ => []
  | n + 1, msg => if stop then [] else msg :: throughputPublishLoop stop n none

/-- Per-class throughput counters (bench.cc:637-640), reset to zero at the
start of each size class (bench.cc:420-421). -/
structure ThroughputCounters where
  totalBytes : Nat
  msgCount : Nat
deriving DecidableEq

/-- PubTester::ThroughputCb (bench.cc:567-585): each reply adds the stored
serialized size `dataSize` to `totalBytes` and increments `msgCount`. -/
def throughputCb (dataSize : Nat) (s : ThroughputCounters) : ThroughputCounters :=
  { totalBytes := s.totalBytes + dataSize, msgCount := s.msgCount + 1 }

/-- Counters after the per-class reset (`totalBytes = 0`, `msgCount = 0`)
followed by `n` reply callbacks. -/
def throughputCountersAfter (dataSize : Nat) : Nat → ThroughputCounters
  | 0 => ⟨0, 0⟩
  | n + 1 => throughputCb dataSize (throughputCountersAfter dataSize n)

/-- One output row of the throughput report (bench.cc:450-452). -/
structure ThroughputRow where
  testNum : Nat
  sizeBytes : Nat
  mbPerSec : ℚ
  kmsgPerSec : ℚ
deriving DecidableEq

/-- Row computation of PubTester::Throughput (bench.cc:441-452): the elapsed
duration is taken in microseconds, converted to seconds by `* 1e-6`, and
the two rates are `totalBytes * 1e-6 / seconds` and
`msgCount * 1e-3 / seconds`.  `double` arithmetic is modelled over ℚ. -/
def throughputReport (testNum dataSize durationMicros : Nat)
    (c : ThroughputCounters) : ThroughputRow :=
  let seconds : ℚ := (durationMicros : ℚ) * (1 / 1000000)
  { testNum := testNum
    sizeBytes := dataSize
    mbPerSec := ((c.totalBytes : ℚ) * (1 / 1000000)) / seconds
    kmsgPerSec := ((c.msgCount : ℚ) * (1 / 1000)) / seconds }

/-! ## Latency measurement (PubTester::Latency, LatencyCb) -/

/-- Running extrema of the latency loop, declared OUTSIDE the per-size loop
(bench.cc:505-506): `maxLatency = 0`,
`minLatency = std::numeric_limits<uint64_t>::max()`. -/
structure LatencyAcc where
  maxLatency : Nat
  minLatency : Nat
deriving DecidableEq

/-- Per-iteration update (bench.cc:548-551): `if (duration > maxLatency)
maxLatency = duration; if (duration < minLatency) minLatency = duration`. -/
def latencyUpdate (acc : LatencyAcc) (d : Nat) : LatencyAcc :=
  { maxLatency := if d > acc.maxLatency then d else acc.maxLatency
    minLatency := if d < acc.minLatency then d else acc.minLatency }

/-- Inner loop of one size class (bench.cc:520-555) over the round-trip
durations (microseconds) of the iterations that executed: threads the
running extrema and accumulates `sum += duration` (the `sum` is declared
inside the per-size loop, bench.cc:517, so it starts from the given value,
0 at each class).  Returns the class's final sum and the extrema. -/
def latencyClassFold (acc : LatencyAcc) (sum : Nat) : List Nat → Nat × LatencyAcc
  | [] => (sum, acc)
  | d :: ds => latencyClassFold (latencyUpdate acc d) (sum + d) ds

/-- One output row of the latency report (bench.cc:558-561). -/
structure LatencyRow where
  testNum : Nat
  sizeBytes : Nat
  avg : ℚ
  min : ℚ
  max : ℚ
deriving DecidableEq

/-- Row printed at the end of a size class (bench.cc:558-561):
`testNum`, `dataSize`, `(sum / (double)sentMsgs) * 0.5`,
`minLatency * 0.5`, `maxLatency * 0.5`.  `double` modelled over ℚ. -/
def latencyRow (testNum dataSize sum : Nat) (acc : LatencyAcc)
    (sentMsgs : Nat) : LatencyRow :=
  { testNum := testNum
    sizeBytes := dataSize
    avg := ((sum : ℚ) / (sentMsgs : ℚ)) * (1 / 2)
    min := (acc.minLatency : ℚ) * (1 / 2)
    max := (acc.maxLatency : ℚ) * (1 / 2) }

/-- Sweep over the size classes (bench.cc:509-562), threading the running
extrema `acc` and the test number across classes; each class is given as
(dataSize, durations of its iterations) and contributes one row whose sum
restarts at 0 while the extrema carry over. -/
def latencySweepGo (sentMsgs testNum : Nat) (acc : LatencyAcc) :
    List (Nat × List Nat) → List LatencyRow
  | [] => []
  | (dataSize, ds) :: rest =>
    let r := latencyClassFold acc 0 ds
    latencyRow testNum dataSize r.1 r.2 sentMsgs ::
      latencySweepGo sentMsgs (testNum + 1) r.2 rest

/-- Full latency sweep with the initial extrema of bench.cc:505-506 and
`testNum = 1` (bench.cc:507). -/
def latencySweep (sentMsgs : Nat) (classes : List (Nat × List Nat)) :
    List LatencyRow :=
  latencySweepGo sentMsgs 1 ⟨0, U64MAX⟩ classes

/-- Iterations of one latency class that execute when the stop flag turns
true before the loop-head check of iteration `stopAt` (0-indexed): the
loop head (bench.cc:520) tests `i < sentMsgs && !stop`, so iterations
`0, …, min sentMsgs stopAt - 1` run, each with round-trip duration
`ds i`. -/
def latencyCompleted (sentMsgs stopAt : Nat) (ds : Nat → Nat) : List Nat :=
  (List.range (min sentMsgs stopAt)).map ds

/-- Row reported for the first size class when the stop flag interrupts its
iteration loop: the sum and extrema come from the completed iterations
only, but the divisor of the average is still `sentMsgs`
(bench.cc:558-561). -/
def latencyClassRowStopped (sentMsgs stopAt dataSize : Nat)
    (ds : Nat → Nat) : LatencyRow :=
  let completed := latencyCompleted sentMsgs stopAt ds
  let r := latencyClassFold ⟨0, U64MAX⟩ 0 completed
  latencyRow 1 dataSize r.1 r.2 sentMsgs

/-! ## Wait predicates (the four suspension points of PubTester) -/

/-- State observed by the blocking waits of PubTester. -/
structure WaitState where
  gStop : Bool
  stop : Bool
  hasConnections : Bool
  msgCount : Nat
  sentMsgs : Nat
  timeEndAfterStart : Bool
  msgAvailable : Bool

/-- Exit condition of the connection wait (bench.cc:390-391 and 483-484):
a sleep-poll loop `while (!pub.HasConnections() && !this->stop)`, which
exits when a connection appears or the tester's stop flag is set. -/
def connectionWaitExit (s : WaitState) : Bool := s.hasConnections || s.stop

/-- Predicate of the Nth-throughput-reply wait (bench.cc:437-439):
`gStop || msgCount >= sentMsgs`. -/
def throughputWaitPredicate (s : WaitState) : Bool :=
  s.gStop || decide (s.msgCount ≥ s.sentMsgs)

/-- Predicate of the per-latency-reply wait (bench.cc:534-535):
`gStop || timeEnd > timeStart`. -/
def latencyWaitPredicate (s : WaitState) : Bool :=
  s.gStop || s.timeEndAfterStart

/-- Predicate of the message-buffer-recycled wait (bench.cc:539-540):
`msg != nullptr` — it does not consult any stop flag. -/
def msgRecycledWaitPredicate (s : WaitState) : Bool := s.msgAvailable

/-! ## Sweep structure (one row per size class) -/

/-- Pairs (testNum, size) for which the per-size loop of Throughput or
Latency emits a row, when the stop flag is first observed true at the
loop-head check of class index `stopAt` (`none` = never): both loops
(bench.cc:414-417 and 509-512) check `if (this->stop) return;` at the top
of each class and print exactly one row at its end. -/
def sweepEmittedGo : Option Nat → Nat → List Nat → List (Nat × Nat)
  | _, _, [] => []
  | none, t, s :: rest => (t, s) :: sweepEmittedGo none (t + 1) rest
  | some 0, _, _ :: _ => []
  | some (k + 1), t, s :: rest => (t, s) :: sweepEmittedGo (some k) (t + 1) rest

/-- Rows emitted by a full sweep over PubTester::msgSizes starting at
`testNum = 1`. -/
def sweepEmitted (stopAt : Option Nat) : List (Nat × Nat) :=
  sweepEmittedGo stopAt 1 pubMsgSizes

/-! ## Theorems -/

/-- Helper: the sum accumulated by one class's iteration fold. -/
theorem latencyClassFold_fst (ds : List Nat) : ∀ (acc : LatencyAcc) (s : Nat),
    (latencyClassFold acc s ds).1 = s + ds.sum := by
  induction ds with
  | nil => intro acc s; simp [latencyClassFold]
  | cons d ds ih =>
    intro acc s
    simp [latencyClassFold, ih]
    ring

/-- Helper: the per-iteration extrema update is max/min. -/
theorem latencyUpdate_eq (acc : LatencyAcc) (d : Nat) :
    latencyUpdate acc d =
      ⟨max acc.maxLatency d, min acc.minLatency d⟩ := by
  unfold latencyUpdate
  simp only [LatencyAcc.mk.injEq]
  constructor
  · rcases lt_or_ge acc.maxLatency d with h | h
    · rw [if_pos h, max_eq_right h.le]
    · rw [if_neg (not_lt.mpr h), max_eq_left h]
  · rcases lt_or_ge d acc.minLatency with h | h
    · rw [if_pos h, min_eq_right h.le]
    · rw [if_neg (not_lt.mpr h), min_eq_left h]

/-- Helper: the extrema returned by one class's iteration fold. -/
theorem latencyClassFold_snd (ds : List Nat) : ∀ (acc : LatencyAcc) (s : Nat),
    (latencyClassFold acc s ds).2 =
      ⟨ds.foldl max acc.maxLatency, ds.foldl min acc.minLatency⟩ := by
  induction ds with
  | nil => intro acc s; simp [latencyClassFold]
  | cons d ds ih =>
    intro acc s
    simp [latencyClassFold, latencyUpdate_eq, ih]

/-- Helper: the sweep yields one row per size class. -/
theorem latencySweepGo_length (classes : List (Nat × List Nat)) :
    ∀ (N t : Nat) (acc : LatencyAcc),
    (latencySweepGo N t acc classes).length = classes.length := by
  induction classes with
  | nil => intro N t acc; rfl
  | cons c rest ih =>
    intro N t acc
    simpa [latencySweepGo] using ih _ _ _

/-- Helper: the full latency sweep yields one row per size class. -/
theorem latencySweep_length (N : Nat) (classes : List (Nat × List Nat)) :
    (latencySweep N classes).length = classes.length :=
  latencySweepGo_length classes N 1 ⟨0, U64MAX⟩

/-- Helper: the average entry of each row of the sweep depends only on that
row's own class: it is the class's duration sum over `sentMsgs`, halved. -/
theorem latencySweepGo_avg (classes : List (Nat × List Nat)) :
    ∀ (N t : Nat) (acc : LatencyAcc) (k : Nat) (hk : k < classes.length),
    ((latencySweepGo N t acc classes).get
        ⟨k, by rw [latencySweepGo_length]; exact hk⟩).avg
      = (((classes.get ⟨k, hk⟩).2.sum : ℚ) / (N : ℚ)) * (1 / 2) := by
  induction classes with
  | nil => intro N t acc k hk; exact absurd hk (by simp)
  | cons c rest ih =>
    intro N t acc k hk
    cases k with
    | zero =>
      simp [latencySweepGo, latencyRow, latencyClassFold_fst]
    | succ k =>
      simpa [latencySweepGo] using
        ih N (t + 1) (latencyClassFold acc 0 c.2).2 k (by simpa using hk)

/-- Helper: counter state after the per-class reset and `n` throughput
reply callbacks. -/
theorem throughputCountersAfter_eq (dataSize n : Nat) :
    throughputCountersAfter dataSize n = ⟨n * dataSize, n⟩ := by
  induction n with
  | zero => simp [throughputCountersAfter]
  | succ n ih => simp [throughputCountersAfter, throughputCb, ih, Nat.succ_mul]

/-- C1: the claim says the relay republishes the identical payload to the
reply channel on every receipt.  In the code, the callbacks actually
subscribed in `ReplyTester::Start` publish nothing at all (they only
record the size), and the never-subscribed member latency callback
publishes a fresh 1-byte message, not the incoming payload: evaluated at
an incoming 256-byte payload. -/
theorem C1_relay_does_not_echo :
    (relaySubscribedThroughputCb 256 (prepPayload 256) ⟨0⟩).2 = [] ∧
    (relaySubscribedLatencyCb 256 (prepPayload 256) ⟨0⟩).2 = [] ∧
    relayMemberLatencyCb (prepPayload 256) ≠ [prepPayload 256] ∧
    relayMemberThroughputReply (prepPayload 256) = [prepPayload 256] := by
  refine ⟨rfl, rfl, ?_, rfl⟩
  decide

/-- C2: `main` never invokes `ReplyTester::Start` under any flag
combination; the relay-only path (`-r`) constructs a ReplyTester and then
merely blocks on the global condition until the stop flag, and the
co-located path (neither `-r` nor `-p`) also constructs a ReplyTester
without calling Start. -/
theorem C2_main_never_calls_start (f : Flags) :
    MainAction.replyStart ∉ mainRun f ∧
    (f.r = true → mainRun f =
      [MainAction.setIterations, MainAction.setOutputFilename,
       MainAction.constructReplyTester, MainAction.waitForStop]) ∧
    (f.r = false → f.p = false →
      MainAction.constructReplyTester ∈ mainRun f) := by
  rcases f with ⟨t, l, r, p⟩
  cases t <;> cases l <;> cases r <;> cases p <;> refine ⟨by decide, ?_, ?_⟩ <;>
    intros <;> simp_all [mainRun]

/-- Witness for C2 at the relay-only flags `-l -r`. -/
theorem C2_main_never_calls_start_witness :
    mainRun ⟨false, true, true, false⟩ =
      [MainAction.setIterations, MainAction.setOutputFilename,
       MainAction.constructReplyTester, MainAction.waitForStop] :=
  (C2_main_never_calls_start ⟨false, true, true, false⟩).2.1 rfl

set_option maxRecDepth 4000 in
/-- C3: the claim says every one of the N throughput publish calls carries
the payload built for the size class.  With N = 2 on the first size class
(256 bytes) and the stop flag unset, the loop hands the prepared payload
to the first `Publish` only; the second call receives the moved-from empty
message, because the null completion callback never returns the buffer. -/
theorem C3_throughput_moved_message :
    throughputPublishLoop false 2 (some (prepPayload 256)) =
      [some (prepPayload 256), none] ∧
    throughputPublishLoop false 2 (some (prepPayload 256)) ≠
      List.replicate 2 (some (prepPayload 256)) := by
  refine ⟨rfl, ?_⟩
  decide

/-- C9 counterexample: for size 256 the Measurement Role's latency request
topic is the legacy un-qualified name, which differs from the
size-qualified topic the Relay Role subscribes to. -/
theorem C9_counterexample :
    pubLatencyRequestTopic ≠ relayLatencyRequestTopic 256 := by
  decide

/-- C9 amended: the Relay Role's four channels are namespaced by the size
and never shared across sizes (pairwise distinct over the sweep), but the
Measurement Role advertises and subscribes the legacy non-size-qualified
names, so for every size of the sweep its channels differ from the Relay
Role's corresponding channels. -/
theorem C9_relay_size_qualified_pub_not :
    pubMsgSizes.Pairwise (fun a b =>
      relayLatencyRequestTopic a ≠ relayLatencyRequestTopic b ∧
      relayThroughputRequestTopic a ≠ relayThroughputRequestTopic b ∧
      relayLatencyReplyTopic a ≠ relayLatencyReplyTopic b ∧
      relayThroughputReplyTopic a ≠ relayThroughputReplyTopic b) ∧
    ∀ s ∈ pubMsgSizes,
      relayLatencyRequestTopic s ≠ pubLatencyRequestTopic ∧
      relayThroughputRequestTopic s ≠ pubThroughputRequestTopic ∧
      relayLatencyReplyTopic s ≠ pubLatencyReplyTopic ∧
      relayThroughputReplyTopic s ≠ pubThroughputReplyTopic := by
  decide

/-- Witness for C9 at size 256. -/
theorem C9_relay_size_qualified_pub_not_witness :
    relayLatencyRequestTopic 256 ≠ pubLatencyRequestTopic :=
  (C9_relay_size_qualified_pub_not.2 256 (by decide)).1

/-- C10: with the stop flag never set, the per-size loop emits exactly one
row per payload size of the fixed sweep, with test numbers 1..15 in order,
the sizes strictly ascending (pairwise increasing), and the driver's (PubTester) size list
identical to the Tester class's size list; moreover the latency sweep
yields exactly one row per size class. -/
theorem C10_one_row_per_size :
    (sweepEmitted none).map Prod.snd = pubMsgSizes ∧
    (sweepEmitted none).map Prod.fst =
      [1, 2, 3, 4, 5, 6, 7, 8, 9, 10, 11, 12, 13, 14, 15] ∧
    List.Pairwise (· < ·) pubMsgSizes ∧
    pubMsgSizes = testerMsgSizes ∧
    ∀ N classes, (latencySweep N classes).length = classes.length := by
  exact ⟨by decide, by decide, by decide, by decide, latencySweep_length⟩

/-- C4 counterexample: latency mode, configured N = 2 iterations, stop flag
raised before the check of iteration 1, one completed iteration with
round-trip duration 10 µs.  The claim says the average is computed over
exactly the completed iterations, i.e. (10 / 1)·0.5 = 5; the code reports
(10 / 2)·0.5 = 2.5, dividing by the configured N. -/
theorem C4_counterexample :
    (latencyClassRowStopped 2 1 256 (fun _ => 10)).avg ≠
      (((latencyCompleted 2 1 (fun _ => 10)).sum : ℚ) /
        ((latencyCompleted 2 1 (fun _ => 10)).length : ℚ)) * (1 / 2) := by
  norm_num [latencyClassRowStopped, latencyCompleted, latencyRow,
    latencyClassFold, latencyUpdate, List.range_succ]

/-- C4 amended: if the stop flag is raised before the loop-head check of
iteration `stopAt ≤ N`, the latency iteration loop exits early after
exactly `stopAt` completed iterations and a row is still reported whose
sum covers only the completed iterations — but the reported average
divides that sum by the configured N, not by the number of completed
iterations. -/
theorem C4_early_exit_partial_stats (N stopAt dataSize : Nat)
    (ds : Nat → Nat) (h : stopAt ≤ N) :
    (latencyCompleted N stopAt ds).length = stopAt ∧
    (latencyClassRowStopped N stopAt dataSize ds).avg
      = (((latencyCompleted N stopAt ds).sum : ℚ) / (N : ℚ)) * (1 / 2) := by
  constructor
  · simp [latencyCompleted, Nat.min_eq_right h]
  · simp [latencyClassRowStopped, latencyRow, latencyClassFold_fst]

/-- Witness for C4 at N = 2, stop before iteration 1, durations 10 µs. -/
theorem C4_early_exit_partial_stats_witness :
    (latencyCompleted 2 1 (fun _ => 10)).length = 1 ∧
    (latencyClassRowStopped 2 1 256 (fun _ => 10)).avg
      = (((latencyCompleted 2 1 (fun _ => 10)).sum : ℚ) / ((2 : Nat) : ℚ)) *
          (1 / 2) :=
  C4_early_exit_partial_stats 2 1 256 (fun _ => 10) (by decide)

/-- C5 counterexample: N = 1, two size classes with round-trip durations
10 µs (class 1, size 256) and 20 µs (class 2, size 512).  The code's
reported min column is [5, 5]: the second row's min is 10·0.5 = 5, carried
over from class 1, while the claim says it is the class's own minimum
duration halved, 20·0.5 = 10. -/
theorem C5_counterexample :
    (latencySweep 1 [(256, [10]), (512, [20])]).map LatencyRow.min =
      [5, 5] ∧
    (5 : ℚ) ≠ ((20 : Nat) : ℚ) * (1 / 2) := by
  constructor
  · norm_num [latencySweep, latencySweepGo, latencyClassFold, latencyUpdate,
      latencyRow, U64MAX]
  · norm_num

/-- C5 amended: the first size class's row does have the claimed shape —
testNum 1, the class's data size, avg = (sum/N)·0.5, min and max the
class's own extrema halved (durations are uint64 values, hence bounded by
U64MAX); for later classes min and max are running extrema over all
durations since the start of the run, not the class's own. -/
theorem C5_first_class_row (dataSize N d : Nat) (ds : List Nat)
    (rest : List (Nat × List Nat)) (hd : d ≤ U64MAX) :
    (latencySweep N ((dataSize, d :: ds) :: rest)).head? = some
      { testNum := 1
        sizeBytes := dataSize
        avg := (((d :: ds).sum : ℚ) / (N : ℚ)) * (1 / 2)
        min := ((ds.foldl min d : Nat) : ℚ) * (1 / 2)
        max := ((ds.foldl max d : Nat) : ℚ) * (1 / 2) } := by
  simp only [latencySweep, latencySweepGo, List.head?_cons, Option.some.injEq]
  have h1 := latencyClassFold_fst (d :: ds) ⟨0, U64MAX⟩ 0
  have h2 := latencyClassFold_snd (d :: ds) ⟨0, U64MAX⟩ 0
  simp only [List.foldl_cons] at h2
  rw [max_eq_right (Nat.zero_le d), min_eq_right hd] at h2
  simp [latencyRow, h1, h2]

/-- Witness for C5 at N = 2, first class (256, [10, 20]). -/
theorem C5_first_class_row_witness :
    (latencySweep 2 [(256, [10, 20])]).head? = some
      { testNum := 1
        sizeBytes := 256
        avg := ((([10, 20] : List Nat).sum : ℚ) / ((2 : Nat) : ℚ)) * (1 / 2)
        min := ((([20] : List Nat).foldl min 10 : Nat) : ℚ) * (1 / 2)
        max := ((([20] : List Nat).foldl max 10 : Nat) : ℚ) * (1 / 2) } :=
  C5_first_class_row 256 2 10 [20] [] (by decide)

/-- C6: after the per-class reset, N reply callbacks leave
totalBytes = N·dataSize (dataSize is the stored serialized size of the
class's message) and msgCount = N, and the reported rates are
MB/s = totalBytes·1e-6 / elapsedSeconds and
Kmsg/s = msgCount·1e-3 / elapsedSeconds with
elapsedSeconds = durationMicros·1e-6. -/
theorem C6_throughput_rates (dataSize N durationMicros testNum : Nat) :
    throughputCountersAfter dataSize N = ⟨N * dataSize, N⟩ ∧
    (throughputReport testNum dataSize durationMicros
        (throughputCountersAfter dataSize N)).mbPerSec
      = (((N * dataSize : Nat) : ℚ) * (1 / 1000000)) /
          ((durationMicros : ℚ) * (1 / 1000000)) ∧
    (throughputReport testNum dataSize durationMicros
        (throughputCountersAfter dataSize N)).kmsgPerSec
      = ((N : ℚ) * (1 / 1000)) / ((durationMicros : ℚ) * (1 / 1000000)) := by
  refine ⟨throughputCountersAfter_eq dataSize N, ?_, ?_⟩ <;>
    simp [throughputReport, throughputCountersAfter_eq]

/-- C7 counterexample: N = 1, second class (512, [7 µs]) kept fixed while
the first class's single duration changes from 5 µs to 9 µs.  The second
row's min column changes (2.5 vs 3.5), so an accumulated value from a
previously measured size class does carry over into a later report row,
contrary to the claim. -/
theorem C7_counterexample :
    (latencySweep 1 [(256, [5]), (512, [7])]).map LatencyRow.min ≠
    (latencySweep 1 [(256, [9]), (512, [7])]).map LatencyRow.min := by
  norm_num [latencySweep, latencySweepGo, latencyClassFold, latencyUpdate,
    latencyRow, U64MAX]

/-- C7 amended: the latency sum and the throughput counters are reset at
the start of each size class — every row's average is its own class's
duration sum over N, halved, independent of earlier classes, and the
throughput counters after a class's reset plus n replies are exactly
(n·dataSize, n) — but the latency min/max extrema are declared outside
the per-size loop and persist across classes. -/
theorem C7_per_class_reset (N : Nat) (classes : List (Nat × List Nat))
    (k : Nat) (hk : k < classes.length) :
    ((latencySweep N classes).get
        ⟨k, by rw [latencySweep_length]; exact hk⟩).avg
      = (((classes.get ⟨k, hk⟩).2.sum : ℚ) / (N : ℚ)) * (1 / 2) ∧
    ∀ dataSize n, throughputCountersAfter dataSize n = ⟨n * dataSize, n⟩ :=
  ⟨latencySweepGo_avg classes N 1 ⟨0, U64MAX⟩ k hk,
   throughputCountersAfter_eq⟩

/-- Witness for C7 at N = 2 with one class (256, [3]). -/
theorem C7_per_class_reset_witness :
    ((latencySweep 2 [(256, [3])]).get
        ⟨0, by rw [latencySweep_length]; decide⟩).avg
      = ((([3] : List Nat).sum : ℚ) / ((2 : Nat) : ℚ)) * (1 / 2) :=
  (C7_per_class_reset 2 [(256, [3])] 0 (by decide)).1

/-- C8 counterexample: a state in which the global stop flag (and the
tester's stop flag) are set but the outbound message buffer has not been
returned: the message-buffer-recycled wait's predicate still returns
false, i.e. that suspension point keeps blocking after the stop flag is
set, contrary to the claim that every wait predicate checks the stop
flag. -/
theorem C8_counterexample :
    msgRecycledWaitPredicate
      { gStop := true, stop := true, hasConnections := true,
        msgCount := 1000, sentMsgs := 1000, timeEndAfterStart := true,
        msgAvailable := false } = false := rfl

/-- C8 amended: the Nth-throughput-reply wait and the per-latency-reply
wait predicates return true whenever the global stop flag is set, and the
peer-connection wait (a sleep-poll loop, not a condition-variable wait)
exits whenever the tester's stop flag is set; the message-buffer-recycled
wait, however, consults only the buffer and ignores the stop flags. -/
theorem C8_stop_checked_except_recycle :
    (∀ s : WaitState, s.gStop = true → throughputWaitPredicate s = true) ∧
    (∀ s : WaitState, s.gStop = true → latencyWaitPredicate s = true) ∧
    (∀ s : WaitState, s.stop = true → connectionWaitExit s = true) ∧
    msgRecycledWaitPredicate
      { gStop := true, stop := true, hasConnections := false,
        msgCount := 0, sentMsgs := 1, timeEndAfterStart := false,
        msgAvailable := false } = false := by
  refine ⟨?_, ?_, ?_, rfl⟩ <;> intro s h <;>
    simp [throughputWaitPredicate, latencyWaitPredicate, connectionWaitExit, h]

/-- Witness for C8 at concrete stopped states. -/
theorem C8_stop_checked_except_recycle_witness :
    throughputWaitPredicate
      { gStop := true, stop := false, hasConnections := false,
        msgCount := 0, sentMsgs := 5, timeEndAfterStart := false,
        msgAvailable := true } = true ∧
    latencyWaitPredicate
      { gStop := true, stop := false, hasConnections := false,
        msgCount := 0, sentMsgs := 5, timeEndAfterStart := false,
        msgAvailable := true } = true ∧
    connectionWaitExit
      { gStop := false, stop := true, hasConnections := false,
        msgCount := 0, sentMsgs := 5, timeEndAfterStart := false,
        msgAvailable := true } = true :=
  ⟨C8_stop_checked_except_recycle.1 _ rfl,
   C8_stop_checked_except_recycle.2.1 _ rfl,
   C8_stop_checked_except_recycle.2.2.1 _ rfl⟩

end Bench
